import Mathlib

/-!
Verification of the ttrpc Go binding generator (`genService` and its helpers).

The generator walks a parsed service descriptor and emits, per service: a
server-side service interface, per-streaming-method server stream wrappers,
a registration function building a dispatch table, a client interface
(when any method streams), and per-method client call bodies.

The shallow embedding below transcribes each emission site of `genService`
into a Lean definition over a descriptor data model.  Where the generated
code has runtime behaviour (handler closures, client call bodies), the
emitted template is transcribed as a Lean function over abstract message,
stream and error types.
-/

namespace TtrpcGen

/-- A method descriptor as the generator reads it: `GoName` (the Go-cased
name), `Desc.Name()` (the proto-local name), the qualified Go identifiers of
the input and output message types, and the two streaming flags
(`IsStreamingClient`, `IsStreamingServer`). -/
structure Method where
  goName : String
  descName : String
  inputType : String
  outputType : String
  isStreamingClient : Bool
  isStreamingServer : Bool
deriving DecidableEq

/-- A service descriptor: Go-local name (`service.GoName`), fully-qualified
proto name (`service.Desc.FullName()`), and the ordered method list. -/
structure Service where
  goName : String
  fullName : String
  methods : List Method
deriving DecidableEq

/-- `gen.ident.context`: the qualified identifier of the context type. -/
def contextIdent : String := "context.Context"

/-- `gen.ident.streamServer`: the qualified server-side base stream type. -/
def streamServerIdent : String := "ttrpc.StreamServer"

/-- `gen.ident.streamClient`: the qualified client-side base stream type. -/
def streamClientIdent : String := "ttrpc.ClientStream"

/-- A method is routed to the `streams` slice exactly when either flag is
set (the branch condition at the top of the method loop, line 117). -/
def isStreaming (m : Method) : Bool := m.isStreamingClient || m.isStreamingServer

/-- The four RPC shapes of the specification's classifier. -/
inductive Shape where
  | UNARY
  | CLIENT_STREAM
  | SERVER_STREAM
  | BIDI_STREAM
deriving DecidableEq

/-- The classifier: the decision structure of `genService`'s method loop
(outer test `IsStreamingClient() || IsStreamingServer()`, inner tests on
each flag, lines 115-132) expressed as a function of the two booleans. -/
def classify (clientStreaming serverStreaming : Bool) : Shape :=
  if clientStreaming || serverStreaming then
    if clientStreaming && serverStreaming then Shape.BIDI_STREAM
    else if clientStreaming then Shape.CLIENT_STREAM
    else Shape.SERVER_STREAM
  else Shape.UNARY

/-- The `methods` slice: methods appended when neither flag is set
(line 129), in source order. -/
def unaryMethods (s : Service) : List Method :=
  s.methods.filter (fun m => !isStreaming m)

/-- The `streams` slice: methods appended when a flag is set (line 118),
in source order. -/
def streamMethods (s : Service) : List Method :=
  s.methods.filter (fun m => isStreaming m)

/-- `serviceName := service.GoName + "Service"` (line 113). -/
def serviceInterfaceName (s : Service) : String := s.goName ++ "Service"

/-- The server stream interface name `fmt.Sprintf("%s_%sServer", ...)`
(line 119, re-emitted at line 141). -/
def serverStreamIfaceName (s : Service) (m : Method) : String :=
  s.goName ++ "_" ++ m.goName ++ "Server"

/-- A Go signature, structurally: method name, argument types in order,
result types in order. -/
structure GoSig where
  name : String
  argTypes : List String
  retTypes : List String
deriving DecidableEq

/-- The service-interface method emitted for one method (lines 115-133):
streaming methods take the server stream wrapper (preceded by `*Input` when
not client-streaming) and return `error` when server-streaming, else
`(*Output, error)`; unary methods take `*Input` and return
`(*Output, error)`. -/
def serverMethodSig (s : Service) (m : Method) : GoSig :=
  if isStreaming m then
    { name := m.goName
      argTypes := [contextIdent]
        ++ (if !m.isStreamingClient then ["*" ++ m.inputType] else [])
        ++ [serverStreamIfaceName s m]
      retTypes :=
        if m.isStreamingServer then ["error"]
        else ["*" ++ m.outputType, "error"] }
  else
    { name := m.goName
      argTypes := [contextIdent, "*" ++ m.inputType]
      retTypes := ["*" ++ m.outputType, "error"] }

/-- The full emitted service interface: one signature per method of the
service, in order (the loop at lines 115-134 emits one line per method). -/
def serviceInterfaceSigs (s : Service) : List GoSig :=
  s.methods.map (serverMethodSig s)

/-- Server-side wrapper struct name
`strings.ToLower(service.GoName) + method.GoName + "Server"` (line 139). -/
def serverWrapperStructName (s : Service) (m : Method) : String :=
  s.goName.toLower ++ m.goName ++ "Server"

/-- Client-side wrapper struct name
`strings.ToLower(service.GoName) + method.GoName + "Client"` (line 315). -/
def clientWrapperStructName (s : Service) (m : Method) : String :=
  s.goName.toLower ++ m.goName ++ "Client"

/-- The declarations of the emitted server stream interface for one
streaming method (lines 141-151): `Send` when server-streaming, `Recv`
when client-streaming, as (name, rest-of-signature) pairs. -/
def serverStreamInterfaceDecls (m : Method) : List (String × String) :=
  (if m.isStreamingServer then [("Send", "(*" ++ m.outputType ++ ") error")] else [])
    ++ (if m.isStreamingClient then [("Recv", "() (*" ++ m.inputType ++ ", error)")] else [])

/-- The method names emitted on the server wrapper struct (lines 158-174):
a `Send` delegating to `SendMsg` when server-streaming, a `Recv`
delegating to `RecvMsg` when client-streaming. -/
def serverWrapperMethodNames (m : Method) : List String :=
  (if m.isStreamingServer then ["Send"] else [])
    ++ (if m.isStreamingClient then ["Recv"] else [])

/-- The declarations of the emitted client stream interface for one
streaming method (lines 324-335): `Send` when client-streaming, `Recv`
when server-streaming and `CloseAndRecv` otherwise. -/
def clientStreamInterfaceDecls (m : Method) : List (String × String) :=
  (if m.isStreamingClient then [("Send", "(*" ++ m.inputType ++ ") error")] else [])
    ++ (if m.isStreamingServer then [("Recv", "() (*" ++ m.outputType ++ ", error)")]
        else [("CloseAndRecv", "() (*" ++ m.outputType ++ ", error)")])

/-- The method names emitted on the client wrapper struct (lines 344-372). -/
def clientWrapperMethodNames (m : Method) : List String :=
  (if m.isStreamingClient then ["Send"] else [])
    ++ (if m.isStreamingServer then ["Recv"] else ["CloseAndRecv"])

/-- The registry key passed to `srv.RegisterService` (line 179): the
service's fully-qualified name. -/
def registryKey (s : Service) : String := s.fullName

/-- The key of a `Methods` map entry (line 183): `method.GoName`. -/
def unaryDispatchKey (m : Method) : String := m.goName

/-- The key of a `Streams` map entry (line 196): `method.GoName`. -/
def streamDispatchKey (m : Method) : String := m.goName

/-- The keys of the emitted `Methods` map, in emission order
(loop at lines 182-190). -/
def methodsMapKeys (s : Service) : List String :=
  (unaryMethods s).map unaryDispatchKey

/-- The keys of the emitted `Streams` map, in emission order
(loop at lines 195-226). -/
def streamsMapKeys (s : Service) : List String :=
  (streamMethods s).map streamDispatchKey

/-- The generated unary handler closure (lines 183-189): decode the
request; on decode error return `(nil, err)`; otherwise return the
interface method's pair unchanged.  `(interface{}, error)` results are
modelled as `Option O × Option E`. -/
def unaryHandler {Ctx I O E : Type} (svcMethod : Ctx → I → Option O × Option E)
    (ctx : Ctx) (unmarshal : Except E I) : Option O × Option E :=
  match unmarshal with
  | Except.error err => (none, some err)
  | Except.ok req => svcMethod ctx req

/-- A server-side stream handle: an abstract message source and a read
position.  `RecvMsg` reads the message at the position and advances it. -/
structure ServerStream (I E : Type) where
  msgSource : Nat → Except E I
  pos : Nat

/-- `stream.RecvMsg` (line 204): yield the next decode result and the
advanced stream. -/
def recvMsg {I E : Type} (st : ServerStream I E) : Except E I × ServerStream I E :=
  (st.msgSource st.pos, { st with pos := st.pos + 1 })

/-- The observable step a generated stream handler takes before handing
control to the service implementation: either the initial decode failed
and the method is never invoked, or the method is invoked with an optional
eagerly-decoded first request and the wrapper built over the remaining
stream. -/
inductive StreamHandlerStep (I E : Type) where
  | decodeFailed (e : E)
  | invoked (firstReq : Option I) (wrapperStream : ServerStream I E)

/-- The generated `Streams` handler closure (lines 197-214): when not
client-streaming, first `RecvMsg` exactly one request, returning the error
on failure, then invoke the method with it and the wrapper; when
client-streaming, invoke the method directly with the wrapper over the
untouched stream. -/
def streamsHandler {I E : Type} (m : Method) (st : ServerStream I E) :
    StreamHandlerStep I E :=
  if !m.isStreamingClient then
    match recvMsg st with
    | (Except.error e, _) => StreamHandlerStep.decodeFailed e
    | (Except.ok v, rest) => StreamHandlerStep.invoked (some v) rest
  else
    StreamHandlerStep.invoked none st

/-- The `StreamingClient`/`StreamingServer` literals emitted into a
`Streams` entry (lines 215-224): `true`/`false` by branching on each
flag. -/
def emittedStreamDescFlags (m : Method) : Bool × Bool :=
  ((if m.isStreamingClient then true else false),
   (if m.isStreamingServer then true else false))

/-- `clientType := service.GoName + "Client"` (line 233). -/
def clientTypeName (s : Service) : String := s.goName ++ "Client"

/-- Whether a distinct client interface is emitted
(`if len(streams) > 0`, line 238). -/
def clientInterfaceEmitted (s : Service) : Bool :=
  decide (0 < (streamMethods s).length)

/-- The interface name the client constructor returns (lines 237-239):
the service interface itself unless some method streams. -/
def clientInterfaceName (s : Service) : String :=
  if 0 < (streamMethods s).length then clientTypeName s
  else serviceInterfaceName s

/-- The declared return type of `New<Service>Client` (line 268). -/
def newClientReturnType (s : Service) : String := clientInterfaceName s

/-- The client stream interface name
`service.GoName + "_" + method.GoName + "Client"` (line 281). -/
def clientStreamIfaceName (s : Service) (m : Method) : String :=
  s.goName ++ "_" ++ m.goName ++ "Client"

/-- The signature of a generated client method (lines 275-291): a `req
*Input` parameter unless client-streaming; result type the typed client
stream handle for streaming methods, `*Output` otherwise, paired with
`error`. -/
def clientMethodSig (s : Service) (m : Method) : GoSig :=
  { name := m.goName
    argTypes := [contextIdent]
      ++ (if !m.isStreamingClient then ["*" ++ m.inputType] else [])
    retTypes :=
      [if isStreaming m then clientStreamIfaceName s m else "*" ++ m.outputType,
       "error"] }

/-- The method-name string the generated unary client call passes to
`c.client.Call` (line 375): `method.Desc.Name()`. -/
def unaryClientCallMethodName (m : Method) : String := m.descName

/-- The method-name string the generated streaming client call passes to
`c.client.NewStream` (line 310): `method.GoName`. -/
def streamClientCallMethodName (m : Method) : String := m.goName

/-- The stream descriptor literal the generated streaming client call
builds (lines 295-309): `StreamingClient`/`StreamingServer` emitted as
`true`/`false` by branching on each flag. -/
structure EmittedStreamDesc where
  streamingClient : Bool
  streamingServer : Bool
deriving DecidableEq

/-- The descriptor value passed to `NewStream` (lines 295-309). -/
def clientCallStreamDesc (m : Method) : EmittedStreamDesc :=
  { streamingClient := if m.isStreamingClient then true else false
    streamingServer := if m.isStreamingServer then true else false }

/-- The typed client stream wrapper value `&structName{stream}`
(line 317). -/
structure ClientStreamWrapper (S : Type) where
  typeName : String
  clientStream : S
deriving DecidableEq

/-- The generated streaming client call body (lines 293-321): call
`NewStream` with the descriptor, the fully-qualified service name, the
method name and the eager request (`nil` when client-streaming, `req`
otherwise); on error return it at once (nil handle, modelled by the
`Except.error` case); on success wrap the session in the typed client
wrapper. -/
def clientStreamCallBody {Req S E : Type} (s : Service) (m : Method)
    (newStream : EmittedStreamDesc → String → String → Option Req → Except E S)
    (req : Req) : Except E (ClientStreamWrapper S) :=
  match newStream (clientCallStreamDesc m) s.fullName m.goName
      (if m.isStreamingClient then none else some req) with
  | Except.error e => Except.error e
  | Except.ok st =>
      Except.ok { typeName := clientWrapperStructName s m, clientStream := st }

/-! Concrete descriptors used by the closed witness theorems. -/

/-- A unary method, as in the spec's `Echo.Say` scenario. -/
def sayMethod : Method :=
  { goName := "Say", descName := "Say", inputType := "EchoRequest"
    outputType := "EchoResponse", isStreamingClient := false, isStreamingServer := false }

/-- A bidirectional-streaming method, as in the spec's `Chat.Talk`
scenario. -/
def talkMethod : Method :=
  { goName := "Talk", descName := "Talk", inputType := "ChatMessage"
    outputType := "ChatMessage", isStreamingClient := true, isStreamingServer := true }

/-- A client-streaming method, as in the spec's `Upload.Put` scenario. -/
def putMethod : Method :=
  { goName := "Put", descName := "Put", inputType := "Chunk"
    outputType := "Ack", isStreamingClient := true, isStreamingServer := false }

/-- A server-streaming method. -/
def watchMethod : Method :=
  { goName := "Watch", descName := "Watch", inputType := "WatchRequest"
    outputType := "Event", isStreamingClient := false, isStreamingServer := true }

/-- A unary method whose proto name is not Go-cased: its `GoName` and
`Desc.Name()` differ. -/
def snakeCaseMethod : Method :=
  { goName := "DoThing", descName := "do_thing", inputType := "ThingRequest"
    outputType := "ThingResponse", isStreamingClient := false, isStreamingServer := false }

/-- A mixed service with one unary and one bidi method. -/
def mixedService : Service :=
  { goName := "Echo", fullName := "example.v1.Echo", methods := [sayMethod, talkMethod] }

/-- A service with only unary methods. -/
def unaryOnlyService : Service :=
  { goName := "Health", fullName := "example.v1.Health", methods := [sayMethod] }

/-- A concrete server stream over `Nat` messages and `String` errors. -/
def natStream : ServerStream Nat String :=
  { msgSource := fun _ => Except.ok 0, pos := 0 }

/-- A concrete `NewStream` oracle that always succeeds with session `0`. -/
def okNewStream : EmittedStreamDesc → String → String → Option Nat → Except String Nat :=
  fun _ _ _ _ => Except.ok 0

/-! Helper lemmas. -/

/-- Cancel a common prefix and a common suffix of string concatenations. -/
theorem string_append_cancel {p a b q : String}
    (h : p ++ a ++ q = p ++ b ++ q) : a = b := by
  have hd : (p ++ a ++ q).data = (p ++ b ++ q).data := congrArg String.data h
  simp only [String.data_append, List.append_assoc] at hd
  have h1 : a.data ++ q.data = b.data ++ q.data := List.append_cancel_left hd
  have h2 : a.data = b.data := List.append_cancel_right h1
  exact congrArg String.mk h2

/-! The claims. -/

/-- C10: classification of a method into a shape is a pure total function
of the pair (clientStreaming, serverStreaming), mapping (false,false) to
UNARY, (true,false) to CLIENT_STREAM, (false,true) to SERVER_STREAM and
(true,true) to BIDI_STREAM; re-running it on the same method yields an
identical result, and a method is routed to the streaming emission path
exactly when its shape is not UNARY. -/
theorem classify_shape_table :
    classify false false = Shape.UNARY ∧
    classify true false = Shape.CLIENT_STREAM ∧
    classify false true = Shape.SERVER_STREAM ∧
    classify true true = Shape.BIDI_STREAM ∧
    (∀ c s : Bool, classify c s = classify c s) ∧
    (∀ m : Method,
      isStreaming m = true ↔ classify m.isStreamingClient m.isStreamingServer ≠ Shape.UNARY) := by
  refine ⟨by decide, by decide, by decide, by decide, fun _ _ => rfl, ?_⟩
  intro m
  cases hc : m.isStreamingClient <;> cases hs : m.isStreamingServer <;>
    simp [isStreaming, classify, hc, hs]

/-- C1: the generated registration function registers the service under
its fully-qualified name, and the dispatch-table keys (the `Methods` map
keys together with the `Streams` map keys) are exactly the methods' local
Go names, one entry per method; when method names do not repeat, no two
methods produce colliding keys. -/
theorem registration_keys (s : Service)
    (hnd : (s.methods.map Method.goName).Nodup) :
    registryKey s = s.fullName ∧
    (methodsMapKeys s ++ streamsMapKeys s).Perm (s.methods.map Method.goName) ∧
    (methodsMapKeys s ++ streamsMapKeys s).Nodup := by
  have h0 := List.filter_append_perm (fun m => !isStreaming m) s.methods
  simp only [Bool.not_not] at h0
  have hperm : (methodsMapKeys s ++ streamsMapKeys s).Perm (s.methods.map Method.goName) := by
    have hm := h0.map Method.goName
    simpa [methodsMapKeys, streamsMapKeys, unaryMethods, streamMethods,
      unaryDispatchKey, streamDispatchKey] using hm
  exact ⟨rfl, hperm, hperm.symm.nodup hnd⟩

/-- C1 witness: the mixed Echo service (one unary, one bidi method). -/
theorem registration_keys_witness :
    (mixedService.methods.map Method.goName).Nodup ∧
    (registryKey mixedService = mixedService.fullName ∧
     (methodsMapKeys mixedService ++ streamsMapKeys mixedService).Perm
        (mixedService.methods.map Method.goName) ∧
     (methodsMapKeys mixedService ++ streamsMapKeys mixedService).Nodup) :=
  ⟨by decide, registration_keys mixedService (by decide)⟩

/-- C2: for a streaming method, the server stream wrapper (interface and
struct) exposes `Send` iff serverStreaming and `Recv` iff clientStreaming;
the client stream wrapper exposes `Send` iff clientStreaming, `Recv` iff
serverStreaming, and `CloseAndRecv` iff serverStreaming is false. -/
theorem stream_wrapper_capabilities (m : Method) (hstream : isStreaming m = true) :
    ("Send" ∈ (serverStreamInterfaceDecls m).map Prod.fst ↔ m.isStreamingServer = true) ∧
    ("Recv" ∈ (serverStreamInterfaceDecls m).map Prod.fst ↔ m.isStreamingClient = true) ∧
    ("Send" ∈ serverWrapperMethodNames m ↔ m.isStreamingServer = true) ∧
    ("Recv" ∈ serverWrapperMethodNames m ↔ m.isStreamingClient = true) ∧
    ("Send" ∈ (clientStreamInterfaceDecls m).map Prod.fst ↔ m.isStreamingClient = true) ∧
    ("Recv" ∈ (clientStreamInterfaceDecls m).map Prod.fst ↔ m.isStreamingServer = true) ∧
    ("CloseAndRecv" ∈ (clientStreamInterfaceDecls m).map Prod.fst ↔ m.isStreamingServer = false) ∧
    ("Send" ∈ clientWrapperMethodNames m ↔ m.isStreamingClient = true) ∧
    ("Recv" ∈ clientWrapperMethodNames m ↔ m.isStreamingServer = true) ∧
    ("CloseAndRecv" ∈ clientWrapperMethodNames m ↔ m.isStreamingServer = false) := by
  cases hc : m.isStreamingClient <;> cases hs : m.isStreamingServer
  · rw [isStreaming, hc, hs] at hstream
    exact absurd hstream (by decide)
  all_goals
    simp [serverStreamInterfaceDecls, serverWrapperMethodNames,
      clientStreamInterfaceDecls, clientWrapperMethodNames, hc, hs]

/-- C2 witness: the client-streaming Put method. -/
theorem stream_wrapper_capabilities_witness :
    isStreaming putMethod = true ∧
    (("Send" ∈ (serverStreamInterfaceDecls putMethod).map Prod.fst ↔
        putMethod.isStreamingServer = true) ∧
     ("Recv" ∈ (serverStreamInterfaceDecls putMethod).map Prod.fst ↔
        putMethod.isStreamingClient = true) ∧
     ("Send" ∈ serverWrapperMethodNames putMethod ↔ putMethod.isStreamingServer = true) ∧
     ("Recv" ∈ serverWrapperMethodNames putMethod ↔ putMethod.isStreamingClient = true) ∧
     ("Send" ∈ (clientStreamInterfaceDecls putMethod).map Prod.fst ↔
        putMethod.isStreamingClient = true) ∧
     ("Recv" ∈ (clientStreamInterfaceDecls putMethod).map Prod.fst ↔
        putMethod.isStreamingServer = true) ∧
     ("CloseAndRecv" ∈ (clientStreamInterfaceDecls putMethod).map Prod.fst ↔
        putMethod.isStreamingServer = false) ∧
     ("Send" ∈ clientWrapperMethodNames putMethod ↔ putMethod.isStreamingClient = true) ∧
     ("Recv" ∈ clientWrapperMethodNames putMethod ↔ putMethod.isStreamingServer = true) ∧
     ("CloseAndRecv" ∈ clientWrapperMethodNames putMethod ↔
        putMethod.isStreamingServer = false)) :=
  ⟨by decide, stream_wrapper_capabilities putMethod (by decide)⟩

/-- C3 counterexample: for the unary method whose proto name `do_thing`
differs from its Go name `DoThing`, the generated client passes the proto
name to the transport while the registration function keys the dispatch
table by the Go name, so the two strings differ. -/
theorem unary_call_name_mismatch :
    unaryClientCallMethodName snakeCaseMethod ≠ unaryDispatchKey snakeCaseMethod := by
  decide

/-- C3 amended: for streaming methods the name passed to `NewStream` equals
that method's `Streams` dispatch key; for unary methods the generated
client passes the method's proto descriptor name while the dispatch key is
its Go name, so the two agree exactly when those two names coincide; each
dispatch key does occur in the corresponding emitted map. -/
theorem client_call_name_agreement (s : Service) (m : Method) :
    streamClientCallMethodName m = streamDispatchKey m ∧
    (unaryClientCallMethodName m = unaryDispatchKey m ↔ m.descName = m.goName) ∧
    (m ∈ unaryMethods s → unaryDispatchKey m ∈ methodsMapKeys s) ∧
    (m ∈ streamMethods s → streamDispatchKey m ∈ streamsMapKeys s) :=
  ⟨rfl, Iff.rfl,
   fun h => List.mem_map_of_mem unaryDispatchKey h,
   fun h => List.mem_map_of_mem streamDispatchKey h⟩

/-- C4: the generated service interface holds exactly one signature per
method, and that signature follows the shape table: UNARY gets
`(context, *Input) (*Output, error)`; CLIENT_STREAM gets
`(context, ServerStreamType) (*Output, error)`; SERVER_STREAM gets
`(context, *Input, ServerStreamType) error`; BIDI_STREAM gets
`(context, ServerStreamType) error`. -/
theorem server_interface_signatures (s : Service) (m : Method) :
    (serviceInterfaceSigs s).length = s.methods.length ∧
    (m ∈ s.methods → serverMethodSig s m ∈ serviceInterfaceSigs s) ∧
    (m.isStreamingClient = false → m.isStreamingServer = false →
      serverMethodSig s m =
        { name := m.goName
          argTypes := [contextIdent, "*" ++ m.inputType]
          retTypes := ["*" ++ m.outputType, "error"] }) ∧
    (m.isStreamingClient = true → m.isStreamingServer = false →
      serverMethodSig s m =
        { name := m.goName
          argTypes := [contextIdent, serverStreamIfaceName s m]
          retTypes := ["*" ++ m.outputType, "error"] }) ∧
    (m.isStreamingClient = false → m.isStreamingServer = true →
      serverMethodSig s m =
        { name := m.goName
          argTypes := [contextIdent, "*" ++ m.inputType, serverStreamIfaceName s m]
          retTypes := ["error"] }) ∧
    (m.isStreamingClient = true → m.isStreamingServer = true →
      serverMethodSig s m =
        { name := m.goName
          argTypes := [contextIdent, serverStreamIfaceName s m]
          retTypes := ["error"] }) := by
  refine ⟨by simp [serviceInterfaceSigs], fun h => List.mem_map_of_mem _ h, ?_, ?_, ?_, ?_⟩ <;>
    · intro hc hs
      simp [serverMethodSig, isStreaming, hc, hs]

/-- C5: a `Streams` registration entry carries flag literals equal to the
method's two booleans, and its handler decodes exactly one request before
invoking the method through the wrapper when the method is not
client-streaming (propagating a decode error without invoking), while a
client-streaming handler builds the wrapper over the untouched stream with
no prior decode. -/
theorem streams_entry_behavior (m : Method) {I E : Type} (st : ServerStream I E)
    (hstream : isStreaming m = true) :
    emittedStreamDescFlags m = (m.isStreamingClient, m.isStreamingServer) ∧
    (m.isStreamingClient = true →
      streamsHandler m st = StreamHandlerStep.invoked none st) ∧
    (m.isStreamingClient = false → ∀ e : E, st.msgSource st.pos = Except.error e →
      streamsHandler m st = StreamHandlerStep.decodeFailed e) ∧
    (m.isStreamingClient = false → ∀ v : I, st.msgSource st.pos = Except.ok v →
      streamsHandler m st =
        StreamHandlerStep.invoked (some v) { msgSource := st.msgSource, pos := st.pos + 1 }) := by
  refine ⟨?_, ?_, ?_, ?_⟩
  · cases hc : m.isStreamingClient <;> cases hs : m.isStreamingServer <;>
      simp [emittedStreamDescFlags, hc, hs]
  · intro hc
    simp [streamsHandler, hc]
  · intro hc e he
    simp [streamsHandler, hc, recvMsg, he]
  · intro hc v hv
    simp [streamsHandler, hc, recvMsg, hv]

/-- C5 witness: the server-streaming Watch method over a concrete stream. -/
theorem streams_entry_behavior_witness :
    isStreaming watchMethod = true ∧
    (emittedStreamDescFlags watchMethod =
        (watchMethod.isStreamingClient, watchMethod.isStreamingServer) ∧
     (watchMethod.isStreamingClient = true →
        streamsHandler watchMethod natStream = StreamHandlerStep.invoked none natStream) ∧
     (watchMethod.isStreamingClient = false → ∀ e : String,
        natStream.msgSource natStream.pos = Except.error e →
        streamsHandler watchMethod natStream = StreamHandlerStep.decodeFailed e) ∧
     (watchMethod.isStreamingClient = false → ∀ v : Nat,
        natStream.msgSource natStream.pos = Except.ok v →
        streamsHandler watchMethod natStream =
          StreamHandlerStep.invoked (some v)
            { msgSource := natStream.msgSource, pos := natStream.pos + 1 })) :=
  ⟨by decide, streams_entry_behavior watchMethod natStream (by decide)⟩

/-- C6: the generated unary handler returns the decode error with no
result when decoding fails (without consulting the service method), and
otherwise returns the service method's result pair unchanged. -/
theorem unary_handler_semantics {Ctx I O E : Type}
    (svcMethod : Ctx → I → Option O × Option E) (ctx : Ctx) :
    (∀ e : E, unaryHandler svcMethod ctx (Except.error e) = (none, some e)) ∧
    (∀ req : I, unaryHandler svcMethod ctx (Except.ok req) = svcMethod ctx req) :=
  ⟨fun _ => rfl, fun _ => rfl⟩

/-- C7: the generated streaming client call builds a stream descriptor
whose flags equal the method's two booleans and opens the session passing
the fully-qualified service name, the method name, and the single outgoing
request eagerly when not client-streaming (nil otherwise); if the open
fails the error is returned immediately with no stream handle, and on
success the typed client wrapper over the session is returned. -/
theorem client_stream_call_behavior (s : Service) (m : Method) {Req S E : Type}
    (newStream : EmittedStreamDesc → String → String → Option Req → Except E S)
    (req : Req) (hstream : isStreaming m = true) :
    clientCallStreamDesc m =
      { streamingClient := m.isStreamingClient, streamingServer := m.isStreamingServer } ∧
    (∀ e : E,
      newStream (clientCallStreamDesc m) s.fullName m.goName
          (if m.isStreamingClient then none else some req) = Except.error e →
      clientStreamCallBody s m newStream req = Except.error e) ∧
    (∀ session : S,
      newStream (clientCallStreamDesc m) s.fullName m.goName
          (if m.isStreamingClient then none else some req) = Except.ok session →
      clientStreamCallBody s m newStream req =
        Except.ok { typeName := clientWrapperStructName s m, clientStream := session }) := by
  refine ⟨?_, ?_, ?_⟩
  · cases hc : m.isStreamingClient <;> cases hs : m.isStreamingServer <;>
      simp [clientCallStreamDesc, hc, hs]
  · intro e he
    simp [clientStreamCallBody, he]
  · intro session hsession
    simp [clientStreamCallBody, hsession]

/-- C7 witness: the bidi Talk method of the Echo service against an
always-succeeding session opener. -/
theorem client_stream_call_behavior_witness :
    isStreaming talkMethod = true ∧
    (clientCallStreamDesc talkMethod =
      { streamingClient := talkMethod.isStreamingClient
        streamingServer := talkMethod.isStreamingServer } ∧
    (∀ e : String,
      okNewStream (clientCallStreamDesc talkMethod) mixedService.fullName talkMethod.goName
          (if talkMethod.isStreamingClient then none else some 7) = Except.error e →
      clientStreamCallBody mixedService talkMethod okNewStream 7 = Except.error e) ∧
    (∀ session : Nat,
      okNewStream (clientCallStreamDesc talkMethod) mixedService.fullName talkMethod.goName
          (if talkMethod.isStreamingClient then none else some 7) = Except.ok session →
      clientStreamCallBody mixedService talkMethod okNewStream 7 =
        Except.ok { typeName := clientWrapperStructName mixedService talkMethod
                    clientStream := session })) :=
  ⟨by decide, client_stream_call_behavior mixedService talkMethod okNewStream 7 (by decide)⟩

/-- C8: for a service with no streaming method, no separate client
interface is emitted, the client constructor's return type is the server
service interface itself, and every client method's structural signature
equals the corresponding server interface method's. -/
theorem no_stream_client_mirror (s : Service) (hz : streamMethods s = []) :
    clientInterfaceEmitted s = false ∧
    clientInterfaceName s = serviceInterfaceName s ∧
    newClientReturnType s = serviceInterfaceName s ∧
    ∀ m ∈ s.methods, clientMethodSig s m = serverMethodSig s m := by
  have hmirror : ∀ m ∈ s.methods, clientMethodSig s m = serverMethodSig s m := by
    intro m hm
    have hns : isStreaming m = false := by
      cases hstr : isStreaming m with
      | false => rfl
      | true =>
          have : m ∈ streamMethods s := List.mem_filter.mpr ⟨hm, hstr⟩
          rw [hz] at this
          exact absurd this (List.not_mem_nil m)
    have hc : m.isStreamingClient = false := by
      cases hcv : m.isStreamingClient with
      | false => rfl
      | true => simp [isStreaming, hcv] at hns
    simp [clientMethodSig, serverMethodSig, hns, hc, contextIdent]
  refine ⟨?_, ?_, ?_, hmirror⟩
  · simp [clientInterfaceEmitted, hz]
  · simp [clientInterfaceName, hz]
  · simp [newClientReturnType, clientInterfaceName, hz]

/-- C8 witness: the Health service with a single unary method. -/
theorem no_stream_client_mirror_witness :
    streamMethods unaryOnlyService = [] ∧
    (clientInterfaceEmitted unaryOnlyService = false ∧
     clientInterfaceName unaryOnlyService = serviceInterfaceName unaryOnlyService ∧
     newClientReturnType unaryOnlyService = serviceInterfaceName unaryOnlyService ∧
     ∀ m ∈ unaryOnlyService.methods,
       clientMethodSig unaryOnlyService m = serverMethodSig unaryOnlyService m) :=
  ⟨by decide, no_stream_client_mirror unaryOnlyService (by decide)⟩

/-- C9: the wrapper struct names are exactly
lowercase(serviceName) ++ methodName ++ "Server" on the server side and
lowercase(serviceName) ++ methodName ++ "Client" on the client side, and
two methods of one service with different names never collide on either
side. -/
theorem wrapper_struct_names (s : Service) (m1 m2 : Method)
    (hne : m1.goName ≠ m2.goName) :
    serverWrapperStructName s m1 = s.goName.toLower ++ m1.goName ++ "Server" ∧
    clientWrapperStructName s m1 = s.goName.toLower ++ m1.goName ++ "Client" ∧
    serverWrapperStructName s m1 ≠ serverWrapperStructName s m2 ∧
    clientWrapperStructName s m1 ≠ clientWrapperStructName s m2 := by
  refine ⟨rfl, rfl, ?_, ?_⟩
  · intro h
    exact hne (string_append_cancel h)
  · intro h
    exact hne (string_append_cancel h)

/-- C9 witness: the Say and Talk methods of the Echo service. -/
theorem wrapper_struct_names_witness :
    sayMethod.goName ≠ talkMethod.goName ∧
    (serverWrapperStructName mixedService sayMethod =
        mixedService.goName.toLower ++ sayMethod.goName ++ "Server" ∧
     clientWrapperStructName mixedService sayMethod =
        mixedService.goName.toLower ++ sayMethod.goName ++ "Client" ∧
     serverWrapperStructName mixedService sayMethod ≠
        serverWrapperStructName mixedService talkMethod ∧
     clientWrapperStructName mixedService sayMethod ≠
        clientWrapperStructName mixedService talkMethod) :=
  ⟨by decide, wrapper_struct_names mixedService sayMethod talkMethod (by decide)⟩

end TtrpcGen
